import Mathlib

/-!
Verification development for rh_api_trading.py (CryptoAPITrading).

The Python source is embedded shallowly: numbers fetched from the remote API
(holdings, quotes, buying power) are taken as rational-valued inputs, the HTTP
transport is an abstract behavior parameter, and Python exceptions are explicit
values. A function result of the form Except.error e models an exception e
propagating out of the modelled Python function; mutations of self performed
before the exception are kept in the returned state, since the fields live on
the object.
-/

/-- Exception classes raised by the Python runtime and the libraries used in
rh_api_trading.py. requestsJSONDecodeError models requests.exceptions.JSONDecodeError,
raised by response.json() on an unparseable body; it is a subclass of
requests.RequestException. jsonDecodeError models the stdlib json.JSONDecodeError
raised by json.loads; it is a ValueError and not a requests.RequestException. -/
inductive PyExc where
  | requestException
  | requestsJSONDecodeError
  | jsonDecodeError
  | valueError
  | zeroDivisionError
  | attributeError (name : String)
  | nameError (name : String)
deriving DecidableEq, Repr

/-- Whether an exception class is caught by the handler
except requests.RequestException at line 65 of make_api_request: only
requests.RequestException and its subclasses are. -/
def PyExc.isRequestException : PyExc → Bool
  | .requestException => true
  | .requestsJSONDecodeError => true
  | _ => false

/-- Observable gateway events of a run: HTTP requests issued, plus the
higher-level fetches performed by check_token and the main loop (each of which
is itself an HTTP GET; they are kept at call granularity). The submitOrder
constructor records a completed call to self.place_order. -/
inductive Event where
  | httpRequest (method : String) (path : String)
  | fetchBuyingPower
  | fetchHoldings (asset_code : String)
  | fetchQuote (symbol : String)
  | submitOrder (side : String) (order_type : String) (symbol : String)
deriving DecidableEq, Repr

/-- The order submissions contained in a trace of gateway events. -/
def submittedOrders (t : List Event) : List Event :=
  t.filter (fun e => match e with | Event.submitOrder _ _ _ => true | _ => false)

/-- The per-symbol position state stored on self (lines 25-29 of __init__). -/
structure PState where
  btc_last_price_bought : ℚ
  btc_last_price_sold : ℚ
  btc_last_quantity_bought : ℚ
  btc_last_quantity_sold : ℚ
  btc_last_price_checked : ℚ
deriving DecidableEq, Repr

/-- Initial position state: every field starts at zero (lines 25-29). -/
def initState : PState := ⟨0, 0, 0, 0, 0⟩

/-- Value returned by make_api_request: Python None (returned by the except
branch) or a parsed JSON body, carried abstractly as the body string. -/
inductive PyVal where
  | none
  | json (body : String)
deriving DecidableEq, Repr

/-- Abstract behavior of the HTTP transport for one request: either the
requests call raises requests.RequestException (network error or timeout), or
the server responds with a status code and a body, where body = Option.none
means the body is not valid JSON, so response.json() raises
requests.exceptions.JSONDecodeError. -/
inductive HttpBehavior where
  | raisesRequestException
  | responds (status : Nat) (body : Option String)
deriving DecidableEq, Repr

/-- Model of the stdlib json.loads restricted to what the repository exercises:
the empty (or whitespace-only) string is not valid JSON and raises
json.JSONDecodeError; a nonempty serialized body parses back. -/
def jsonLoads (s : String) : Except PyExc String :=
  if s.data.all (fun c => c.isWhitespace) then Except.error PyExc.jsonDecodeError
  else Except.ok s

/-- The try block of make_api_request (lines 53-64). A GET issues the request
and calls response.json(). A POST first evaluates its json.loads(body) argument
and only then issues the request; json.loads raising means no HTTP request is
ever sent. Any other method leaves response as the initial dict literal, whose
missing json attribute raises AttributeError. Errors here are raw exceptions,
not yet filtered by the except clause. -/
def make_api_request_try (net : HttpBehavior) (method path body : String) :
    List Event × Except PyExc PyVal :=
  if method = "GET" then
    match net with
    | HttpBehavior.raisesRequestException =>
        ([Event.httpRequest "GET" path], Except.error PyExc.requestException)
    | HttpBehavior.responds _status bodyOpt =>
        match bodyOpt with
        | Option.some j => ([Event.httpRequest "GET" path], Except.ok (PyVal.json j))
        | Option.none =>
            ([Event.httpRequest "GET" path], Except.error PyExc.requestsJSONDecodeError)
  else if method = "POST" then
    match jsonLoads body with
    | Except.error e => ([], Except.error e)
    | Except.ok _ =>
      match net with
      | HttpBehavior.raisesRequestException =>
          ([Event.httpRequest "POST" path], Except.error PyExc.requestException)
      | HttpBehavior.responds _status bodyOpt =>
          match bodyOpt with
          | Option.some j => ([Event.httpRequest "POST" path], Except.ok (PyVal.json j))
          | Option.none =>
              ([Event.httpRequest "POST" path], Except.error PyExc.requestsJSONDecodeError)
  else ([], Except.error (PyExc.attributeError "json"))

/-- make_api_request (lines 48-67): runs the try block; an exception that is a
requests.RequestException is caught, printed and turned into the return value
None; any other exception propagates to the caller. The HTTP status code is
never inspected. -/
def make_api_request (net : HttpBehavior) (method path body : String) :
    List Event × Except PyExc PyVal :=
  let r := make_api_request_try net method path body
  match r.2 with
  | Except.ok v => (r.1, Except.ok v)
  | Except.error e =>
      if e.isRequestException then (r.1, Except.ok PyVal.none) else (r.1, Except.error e)

/-- cancel_order (lines 139-141): a POST to the cancel path, relying on the
default empty body of make_api_request (line 48). -/
def cancel_order (net : HttpBehavior) (order_id : String) :
    List Event × Except PyExc PyVal :=
  make_api_request net "POST"
    ("/api/v1/crypto/trading/orders/" ++ order_id ++ "/cancel/") ""

/-- get_query_params (lines 36-45): returns the empty string when args is
empty; otherwise builds the params list by appending one key=arg entry per
argument in order and returns "?" followed by the entries joined with "&". -/
def get_query_params (key : String) (args : List String) : String :=
  if args.isEmpty then ""
  else
    let params := args.foldl (fun acc arg => acc ++ [key ++ "=" ++ arg]) []
    "?" ++ String.intercalate "&" params

/-- get_authorization_header (lines 70-81). The Ed25519 signature primitive and
base64 encoding are abstracted as function parameters (external library
capabilities). message_to_sign is the f-string concatenating api_key, the
decimal rendering of the timestamp, path, method and body, in that order; the
returned header set is exactly the three auth headers. -/
def get_authorization_header (sign : String → String) (b64encode : String → String)
    (api_key method path body : String) (timestamp : Nat) : List (String × String) :=
  let message_to_sign := api_key ++ Nat.repr timestamp ++ path ++ method ++ body
  [("x-api-key", api_key),
   ("x-signature", b64encode (sign message_to_sign)),
   ("x-timestamp", Nat.repr timestamp)]

/-- Ed25519PrivateKey.from_private_bytes of the cryptography library: it
accepts exactly a 32-byte key and raises ValueError otherwise (the comment at
line 19 of the source records this constraint). Key bytes are a list of byte
values. -/
def from_private_bytes (b : List Nat) : Except PyExc (List Nat) :=
  if b.length = 32 then Except.ok b else Except.error PyExc.valueError

/-- The private-key construction in __init__ (lines 18-20): the base64-decoded
key material is sliced to its first 32 bytes by private_bytes[:32] before being
handed to from_private_bytes. -/
def init_private_key (private_bytes : List Nat) : Except PyExc (List Nat) :=
  from_private_bytes (List.take 32 private_bytes)

/-- check_token (lines 160-246), with the values fetched from the API taken as
numeric inputs: token_holdings is the value compared to 0 at line 166 and
btc_price is the quote fetched at line 169 (and fetched again at line 243).
The result is the final position state, the trace of gateway calls, and the
exception escaping check_token, if any. The class defines no method named
place_order_by_dollar_amount, so the calls at lines 182 and 230 raise
AttributeError at attribute lookup, before any argument is evaluated and
before any order is submitted; the name asset_quantity at line 206 is unbound,
so the order-body dict literal there raises NameError before place_order is
called. Consequently the state updates at lines 192, 210-212 and 238-241 are
unreachable, and in the zero-holdings branch only the assignment to
btc_last_price_checked at line 170 ever executes. In the nonzero-holdings
branch, control skips to line 243: a quote is fetched and printed but no field
of self is assigned. -/
def check_token (s : PState) (ticker : String) (token_holdings btc_price : ℚ) :
    PState × List Event × Option PyExc :=
  -- line 162: token_holdings = self.get_holdings(ticker)
  let ev0 : List Event := [Event.fetchHoldings ticker]
  -- line 166: if token_holdings == 0
  if token_holdings = 0 then
    -- lines 169-170: fetch the quote and record it in btc_last_price_checked
    let ev1 := ev0 ++ [Event.fetchQuote "BTC-USD"]
    let s1 := { s with btc_last_price_checked := btc_price }
    -- line 174: if self.btc_last_price_sold != 0
    if s1.btc_last_price_sold ≠ 0 then
      -- line 176: strict comparison btc_price < self.btc_last_price_sold * 0.97
      if btc_price < s1.btc_last_price_sold * (97 / 100) then
        -- line 178: btc_quantity = 10 / btc_price
        if btc_price = 0 then (s1, ev1, Option.some PyExc.zeroDivisionError)
        else
          -- line 182: self.place_order_by_dollar_amount does not exist
          (s1, ev1, Option.some (PyExc.attributeError "place_order_by_dollar_amount"))
      else
        -- the inner if has no else: control falls through to line 230,
        -- which again looks up the nonexistent place_order_by_dollar_amount
        (s1, ev1, Option.some (PyExc.attributeError "place_order_by_dollar_amount"))
    else
      -- line 198: btc_qty = 10 / btc_price
      if btc_price = 0 then (s1, ev1, Option.some PyExc.zeroDivisionError)
      else
        -- line 206: the bare name asset_quantity is unbound
        (s1, ev1, Option.some (PyExc.nameError "asset_quantity"))
  else
    -- line 243: fetch and print the quote; no assignment to any field of self
    (s, ev0 ++ [Event.fetchQuote "BTC-USD"], Option.none)

/-- One iteration of the trading loop in main (lines 304-314), with the fetched
buying power taken as a numeric input: check buying power; if it is at least 10,
call self.check_bitcoin() — a method that does not exist on CryptoAPITrading
(the decision method is named check_token), so the call raises AttributeError —
otherwise do nothing further before sleeping. -/
def main_loop_tick (s : PState) (buying_power : ℚ) :
    PState × List Event × Option PyExc :=
  -- line 307: buying_power = api_trading_client.check_buying_power()
  let ev0 : List Event := [Event.fetchBuyingPower]
  -- line 309: if buying_power >= 10
  if buying_power ≥ 10 then
    (s, ev0, Option.some (PyExc.attributeError "check_bitcoin"))
  else
    (s, ev0, Option.none)

/-! ## Theorems -/

/-- Folding the append of one formatted pair per argument onto an accumulator
yields the accumulator followed by the mapped arguments, in order. -/
theorem gqp_foldl_eq_map (f : String → String) (args : List String) (acc : List String) :
    args.foldl (fun a x => a ++ [f x]) acc = acc ++ args.map f := by
  induction args generalizing acc with
  | nil => simp
  | cons x xs ih => simp [List.foldl_cons, ih]

/-- C8: for every key and argument list, get_query_params returns the empty
string on an empty argument list, and otherwise returns "?" followed by one
key=value pair per argument in argument order, separated by "&". -/
theorem C8_query_params_shape (key : String) (args : List String) :
    get_query_params key args =
      if args = [] then ""
      else "?" ++ String.intercalate "&" (args.map (fun arg => key ++ "=" ++ arg)) := by
  cases args with
  | nil => rfl
  | cons a l =>
      simp [get_query_params, gqp_foldl_eq_map (fun arg => key ++ "=" ++ arg) (a :: l) []]

/-- C6: for every api_key, timestamp, path, method and body (and any signature
and base64 primitives), the signed message is the concatenation of api_key, the
decimal string of the timestamp, path, method and body, in exactly that order,
and the returned header set consists exactly of x-api-key, x-signature (the
base64 encoding of the signature) and x-timestamp (the decimal timestamp). -/
theorem C6_auth_header_shape (sign b64encode : String → String)
    (api_key method path body : String) (timestamp : Nat) :
    get_authorization_header sign b64encode api_key method path body timestamp =
      [("x-api-key", api_key),
       ("x-signature", b64encode (sign (api_key ++ Nat.repr timestamp ++ path ++ method ++ body))),
       ("x-timestamp", Nat.repr timestamp)] := rfl

/-- C9: in every tick of the trading loop in which the fetched buying power is
below 10, the tick consists of the buying-power fetch only: no quote is
fetched, the decision method is not invoked, no order is submitted, no
exception is raised, and the position state is unchanged. -/
theorem C9_low_buying_power_skips (s : PState) (buying_power : ℚ)
    (h : buying_power < 10) :
    main_loop_tick s buying_power = (s, [Event.fetchBuyingPower], Option.none) := by
  simp [main_loop_tick, not_le.mpr h]

/-- Witness for C9 at buying power 5. -/
theorem C9_low_buying_power_skips_witness :
    (5 : ℚ) < 10 ∧ main_loop_tick initState 5 = (initState, [Event.fetchBuyingPower], Option.none) :=
  ⟨by norm_num, C9_low_buying_power_skips initState 5 (by norm_num)⟩

/-- C10: for every transport behavior and order id, cancel_order propagates a
stdlib json.JSONDecodeError out of make_api_request with an empty event trace:
the POST body defaults to the empty string, json.loads of the empty string
raises before requests.post is invoked, so no HTTP request is issued, and the
exception class is not a requests.RequestException, so the except clause does
not catch it. -/
theorem C10_cancel_order_raises (net : HttpBehavior) (order_id : String) :
    cancel_order net order_id = ([], Except.error PyExc.jsonDecodeError) ∧
      PyExc.isRequestException PyExc.jsonDecodeError = false :=
  ⟨rfl, rfl⟩

/-- C5 counterexample: at a concrete non-2xx response (status 500 with a valid
JSON body), make_api_request returns the parsed body as an ordinary success
value, byte-for-byte identical to the status-200 result — no TransportError
carrying the status is returned to the caller — and a network failure and an
unparseable body both collapse to the same None value, so no distinct
ParseError exists either. This refutes the claim that transport failures and
non-2xx responses yield a TransportError result and malformed JSON a
ParseError. -/
theorem C5_counterexample :
    make_api_request (HttpBehavior.responds 500 (Option.some "X")) "GET"
        "/api/v1/crypto/trading/accounts/" "" =
      make_api_request (HttpBehavior.responds 200 (Option.some "X")) "GET"
        "/api/v1/crypto/trading/accounts/" "" ∧
    make_api_request (HttpBehavior.responds 500 (Option.some "X")) "GET"
        "/api/v1/crypto/trading/accounts/" "" =
      ([Event.httpRequest "GET" "/api/v1/crypto/trading/accounts/"],
        Except.ok (PyVal.json "X")) ∧
    make_api_request HttpBehavior.raisesRequestException "GET"
        "/api/v1/crypto/trading/accounts/" "" =
      ([Event.httpRequest "GET" "/api/v1/crypto/trading/accounts/"], Except.ok PyVal.none) ∧
    make_api_request (HttpBehavior.responds 500 Option.none) "GET"
        "/api/v1/crypto/trading/accounts/" "" =
      ([Event.httpRequest "GET" "/api/v1/crypto/trading/accounts/"], Except.ok PyVal.none) :=
  ⟨rfl, rfl, rfl, rfl⟩

/-- C5 amended: for every GET call, a network/timeout failure and an
unparseable response body are both caught by the except clause and returned to
the caller as the single sentinel None, with no status, cause, or
transport-versus-parse distinction, while a response of any status whose body
parses is returned as a plain success containing the parsed body — non-2xx
statuses are never inspected and are not surfaced as errors. -/
theorem C5_amended (path : String) (status : Nat) (body : String) :
    make_api_request HttpBehavior.raisesRequestException "GET" path "" =
        ([Event.httpRequest "GET" path], Except.ok PyVal.none) ∧
      make_api_request (HttpBehavior.responds status Option.none) "GET" path "" =
        ([Event.httpRequest "GET" path], Except.ok PyVal.none) ∧
      make_api_request (HttpBehavior.responds status (Option.some body)) "GET" path "" =
        ([Event.httpRequest "GET" path], Except.ok (PyVal.json body)) :=
  ⟨rfl, rfl, rfl⟩

/-- C7 counterexample: a decoded private key of 33 bytes — not the expected
32-byte seed length — does not fail; it is silently truncated to its first 32
bytes and accepted. This refutes the claim that construction fails whenever
the decoded length is not exactly 32 and that longer keys are rejected. -/
theorem C7_counterexample :
    init_private_key (List.replicate 33 7) = Except.ok (List.replicate 32 7) := rfl

/-- C7 amended: constructing the signer key succeeds exactly when the decoded
key material has at least 32 bytes, in which case only its first 32 bytes are
used (the slice private_bytes[:32] truncates longer keys); it fails with the
library's ValueError exactly when fewer than 32 bytes were decoded. -/
theorem C7_amended (b : List Nat) :
    (32 ≤ b.length → init_private_key b = Except.ok (b.take 32)) ∧
      (b.length < 32 → init_private_key b = Except.error PyExc.valueError) := by
  constructor
  · intro h
    simp [init_private_key, from_private_bytes, List.length_take, Nat.min_eq_left h]
  · intro h
    have hne : min 32 b.length ≠ 32 := by omega
    simp [init_private_key, from_private_bytes, List.length_take, hne]

/-- Witness for C7 amended, at a 40-byte key (truncated and accepted) and a
5-byte key (rejected). -/
theorem C7_amended_witness :
    (32 ≤ (List.replicate 40 0).length ∧
        init_private_key (List.replicate 40 0) = Except.ok ((List.replicate 40 0).take 32)) ∧
      ((List.replicate 5 0).length < 32 ∧
        init_private_key (List.replicate 5 0) = Except.error PyExc.valueError) :=
  ⟨⟨by decide, (C7_amended (List.replicate 40 0)).1 (by decide)⟩,
   ⟨by decide, (C7_amended (List.replicate 5 0)).2 (by decide)⟩⟩

/-- C4 counterexample: a tick of check_token with nonzero holdings (1) and an
observed quote of 50, starting from the initial state, fetches a quote and
completes without any exception, yet leaves btc_last_price_checked at 0 — the
quote just observed is not recorded in the HasHoldings branch. This refutes
the claim that every quote-fetching tick sets last_price_checked in every
branch. -/
theorem C4_counterexample :
    check_token initState "BTC" 1 50 =
        (initState, [Event.fetchHoldings "BTC", Event.fetchQuote "BTC-USD"], Option.none) ∧
      initState.btc_last_price_checked ≠ 50 := by
  constructor
  · decide
  · decide

/-- C4 amended: btc_last_price_checked is set to the observed quote only in
the zero-holdings branch (line 170), whatever the price; in the
nonzero-holdings branch a quote is fetched (line 243) but the entire position
state, btc_last_price_checked included, is left unchanged. -/
theorem C4_amended (s : PState) (ticker : String) (holdings price : ℚ) :
    ((check_token s ticker 0 price).1.btc_last_price_checked = price) ∧
      (holdings ≠ 0 → check_token s ticker holdings price =
        (s, [Event.fetchHoldings ticker, Event.fetchQuote "BTC-USD"], Option.none)) := by
  constructor
  · by_cases h1 : s.btc_last_price_sold = 0 <;>
      by_cases h2 : price < s.btc_last_price_sold * (97 / 100) <;>
      by_cases h3 : price = 0 <;>
      simp [check_token, h1, h2, h3] <;> split <;> rfl
  · intro h
    simp [check_token, h]

/-- Witness for C4 amended: the zero-holdings branch at quote 50 records 50,
and the nonzero-holdings branch with holdings 1 leaves the state untouched. -/
theorem C4_amended_witness :
    ((check_token initState "BTC" 0 50).1.btc_last_price_checked = 50) ∧
      ((1 : ℚ) ≠ 0 ∧ check_token initState "BTC" 1 50 =
        (initState, [Event.fetchHoldings "BTC", Event.fetchQuote "BTC-USD"], Option.none)) :=
  ⟨(C4_amended initState "BTC" 1 50).1,
   by norm_num, (C4_amended initState "BTC" 1 50).2 (by norm_num)⟩

/-- C1: evaluation of the code at the claimed scenario (holdings zero,
last price sold 100, dip threshold 3 percent). At P = 96.99 the claim expects
Buy; the code enters the dip branch (the comparison at line 176 is the strict
btc_price < 97) but raises AttributeError looking up the nonexistent method
place_order_by_dollar_amount, submitting nothing. At P = 97.00, claimed to be
an inclusive Buy boundary, the strict comparison skips the dip branch. At
P = 97.01 the claim expects Hold, but instead of holding, control falls
through to the unconditional buy attempt at line 230, which raises the same
AttributeError. No run of this scenario emits Buy or completes a Hold. -/
theorem C1_code_behavior :
    (check_token { initState with btc_last_price_sold := 100 } "BTC" 0 (9699 / 100) =
      ({ initState with btc_last_price_sold := 100, btc_last_price_checked := 9699 / 100 },
       [Event.fetchHoldings "BTC", Event.fetchQuote "BTC-USD"],
       Option.some (PyExc.attributeError "place_order_by_dollar_amount"))) ∧
    (check_token { initState with btc_last_price_sold := 100 } "BTC" 0 97 =
      ({ initState with btc_last_price_sold := 100, btc_last_price_checked := 97 },
       [Event.fetchHoldings "BTC", Event.fetchQuote "BTC-USD"],
       Option.some (PyExc.attributeError "place_order_by_dollar_amount"))) ∧
    (check_token { initState with btc_last_price_sold := 100 } "BTC" 0 (9701 / 100) =
      ({ initState with btc_last_price_sold := 100, btc_last_price_checked := 9701 / 100 },
       [Event.fetchHoldings "BTC", Event.fetchQuote "BTC-USD"],
       Option.some (PyExc.attributeError "place_order_by_dollar_amount"))) ∧
    submittedOrders [Event.fetchHoldings "BTC", Event.fetchQuote "BTC-USD"] = [] := by
  refine ⟨?_, ?_, ?_, rfl⟩ <;> norm_num [check_token, initState]

/-- C2: evaluation of the code at the claimed scenario (holdings zero, never
sold, so btc_last_price_sold = 0, at price 50). The claim expects a Buy of the
fixed entry amount; the code takes the first-time-buy branch but raises
NameError on the unbound name asset_quantity in the order-config dict literal
at line 206, before self.place_order is ever called, so no Buy is emitted. -/
theorem C2_code_behavior :
    check_token initState "BTC" 0 50 =
      ({ initState with btc_last_price_checked := 50 },
       [Event.fetchHoldings "BTC", Event.fetchQuote "BTC-USD"],
       Option.some (PyExc.nameError "asset_quantity")) := by
  norm_num [check_token, initState]

/-- C3: evaluation of the code on both buy paths of the decision step. No
order is ever submitted (each path raises before reaching its submission
call), so the claimed only-on-confirmed-fill update discipline is never
exercised: the code contains no fill-confirmation logic at all, and its
post-submission assignments (lines 192, 210-212, 238-241), which would update
the trade fields on mere submission without inspecting the gateway result,
are unreachable. -/
theorem C3_code_behavior :
    (submittedOrders (check_token initState "BTC" 0 50).2.1 = [] ∧
      (check_token initState "BTC" 0 50).2.2 = Option.some (PyExc.nameError "asset_quantity") ∧
      (check_token initState "BTC" 0 50).1.btc_last_price_bought = 0 ∧
      (check_token initState "BTC" 0 50).1.btc_last_quantity_bought = 0) ∧
    (submittedOrders (check_token { initState with btc_last_price_sold := 100 } "BTC" 0 90).2.1 = [] ∧
      (check_token { initState with btc_last_price_sold := 100 } "BTC" 0 90).2.2 =
        Option.some (PyExc.attributeError "place_order_by_dollar_amount") ∧
      (check_token { initState with btc_last_price_sold := 100 } "BTC" 0 90).1.btc_last_price_bought = 0 ∧
      (check_token { initState with btc_last_price_sold := 100 } "BTC" 0 90).1.btc_last_quantity_bought = 0) := by
  constructor <;> refine ⟨?_, ?_, ?_, ?_⟩ <;> norm_num [check_token, initState, submittedOrders]
